import Mathlib

/-!
Verification of the educational-roguelike quiz-battle engine against its
specification.  The repository ships the browser-side controllers
(game.js, the stats view and the animation helpers); the server-side core
(session state machine, combat resolver, powerup system, encounter
controller and stats aggregator) is not part of the source tree, so those
components are modelled here directly from the specification text, with
each such definition marked accordingly.  The client-side functions that
the claims reference (option synthesis for true/false questions, the
stats time formatter) are translated from the JavaScript source.
-/

namespace Roguelike

/-- Modelled from the spec: session lifecycle status
(active, won, lost, abandoned). -/
inductive SessionStatus where
  | active
  | won
  | lost
  | abandoned
deriving DecidableEq, Repr

/-- Modelled from the spec: the error taxonomy of section 7. -/
inductive GameError where
  | staleQuestion
  | invalidSessionState
  | powerupNotOwned
  | alreadyActive
  | poolExhausted
  | persistenceFailure
deriving DecidableEq, Repr

/-- Modelled from the spec: question difficulty tiers (easy/medium/hard). -/
inductive Difficulty where
  | easy
  | medium
  | hard
deriving DecidableEq, Repr

/-- Question type as observed in game.js (question_type === 'true_false'
selects the synthesized boolean options). -/
inductive QuestionType where
  | multipleChoice
  | trueFalse
deriving DecidableEq, Repr

/-- Modelled from the spec: the closed set of powerup effect kinds
(heal, shield, damageBoost, scoreBoost). -/
inductive EffectKind where
  | heal
  | shield
  | damageBoost
  | scoreBoost
deriving DecidableEq, Repr

/-- Modelled from the spec: static rule for one powerup kind. -/
structure PowerupDefinition where
  id : String
  name : String
  effectKind : EffectKind
  magnitude : Nat
deriving DecidableEq, Repr

/-- Modelled from the spec: the learner's combat stats.  The integers are
unbounded machine integers of the host language, so nonnegativity of hp,
shield and score is a stated invariant, not a typing fact. -/
structure PlayerState where
  hp : Int
  maxHp : Int
  shield : Int
  score : Int
deriving DecidableEq, Repr

/-- Modelled from the spec: the current opponent. -/
structure EnemyState where
  hp : Int
  maxHp : Int
  damage : Int
  isBoss : Bool
  displayId : Nat
deriving DecidableEq, Repr

/-- Modelled from the spec: one question instance as supplied by the
external Question Pool Adapter. -/
structure QuestionRecord where
  id : Nat
  topic : String
  difficulty : Difficulty
  text : String
  options : List String
  questionType : QuestionType
  correctAnswer : String
  explanation : String
deriving DecidableEq, Repr

/-- Modelled from the spec: one learner's run through one material's
dungeon.  The damageBoost/scoreBoost fields are the pending one-answer
multiplier flags set by the Powerup System and consumed (then cleared) by
the next resolveAnswer call. -/
structure GameSession where
  player : PlayerState
  enemy : EnemyState
  encounterIndex : Nat
  totalEncounters : Nat
  inventory : List String
  activeQuestionId : Option Nat
  status : SessionStatus
  damageBoost : Option Nat
  scoreBoost : Option Nat
deriving DecidableEq, Repr

/-- Modelled from the spec: rolling performance for one topic. -/
structure TopicStat where
  topic : String
  attempts : Nat
  correct : Nat
  accumulatedTimeSeconds : Nat
deriving DecidableEq, Repr

/-- Modelled from the spec: aggregate across all topics. -/
structure OverallStats where
  totalAnswers : Nat
  correctAnswers : Nat
  totalTimeSeconds : Nat
  totalScore : Nat
  completedGames : Nat
deriving DecidableEq, Repr

/-- Modelled from the spec: the result record of one answer resolution. -/
structure AnswerResult where
  isCorrect : Bool
  damageDealt : Nat
  damageReceived : Int
  playerSnapshot : PlayerState
  enemySnapshot : EnemyState
  powerupGained : Option String
  enemyDefeated : Bool
  playerDied : Bool
  gameWon : Bool
  score : Int
  correctAnswer : String
  explanation : String
deriving DecidableEq, Repr

/-- Modelled from the spec: the explicit injected configuration object of
section 9 (difficulty multipliers, base damage/score values, the enemy
scaling template and the powerup catalog and grant policy). -/
structure Config where
  baseDamage : Nat
  baseScore : Nat
  diffMult : Difficulty → Nat
  enemyTemplate : Nat → EnemyState
  catalog : String → PowerupDefinition
  grantPolicy : QuestionRecord → Option String

/-- Case normalization used for answer comparison (lowercases every
character of the string). -/
def lowerStr (s : String) : String :=
  String.mk (s.data.map Char.toLower)

/-- Modelled from the spec: correctness = case-insensitive exact match of
the submitted answer against the question's correctAnswer. -/
def isCorrect (q : QuestionRecord) (submitted : String) : Bool :=
  lowerStr submitted == lowerStr q.correctAnswer

/-- Modelled from the spec: incorrect-answer damage application — damage
is first absorbed by shield (shield reduced before hp), the remainder is
subtracted from hp, floored at 0. -/
def absorb (p : PlayerState) (dmg : Int) : PlayerState :=
  let absorbed := min p.shield dmg
  { p with
    shield := p.shield - absorbed
    hp := max 0 (p.hp - (dmg - absorbed)) }

/-- Modelled from the spec: startEncounter selects the enemy template for
the session's encounterIndex and marks it as boss on the final slot. -/
def startEncounter (cfg : Config) (s : GameSession) : EnemyState :=
  let e := cfg.enemyTemplate s.encounterIndex
  { e with isBoss := decide (s.encounterIndex = s.totalEncounters) }

/-- Modelled from the spec: the advance step shared by the public advance
operation and resolveAnswer's enemy-defeat handling — increments
encounterIndex; if it exceeds totalEncounters the session transitions to
won, otherwise a new EnemyState is produced via startEncounter. -/
def advanceCore (cfg : Config) (s : GameSession) : GameSession :=
  if s.encounterIndex + 1 > s.totalEncounters then
    { s with encounterIndex := s.encounterIndex + 1, status := SessionStatus.won }
  else
    { s with
      encounterIndex := s.encounterIndex + 1
      enemy := startEncounter cfg { s with encounterIndex := s.encounterIndex + 1 } }

/-- Modelled from the spec: advance(session) — fails with
InvalidSessionState when called on a terminated session. -/
def advance (cfg : Config) (s : GameSession) : Except GameError GameSession :=
  if s.status = SessionStatus.active then
    Except.ok (advanceCore cfg s)
  else
    Except.error GameError.invalidSessionState

/-- Modelled from the spec: resolveAnswer(session, questionId,
submittedAnswer).  Preconditions: questionId must equal the session's
activeQuestionId (violation fails with StaleQuestion) and the session
must be active (violation fails with InvalidSessionState); a rejected
submission mutates no state, so the session is returned unchanged.
On success: a correct answer damages the enemy (base value times the
difficulty multiplier times any pending damageBoost), floored at 0, and
increases score (base value times difficulty times any pending
scoreBoost), possibly granting a powerup per the grant policy; an
incorrect answer applies the enemy's damage stat to the player through
absorb.  Terminal checks in order: enemy hp = 0 sets enemyDefeated and
advances the encounter (setting gameWon when the advance wins the
session); otherwise player hp = 0 sets playerDied and the session is
lost.  The pending boost flags are consumed and the activeQuestionId is
cleared; the result carries the correct answer and explanation. -/
def resolveAnswer (cfg : Config) (lookup : Nat → QuestionRecord)
    (s : GameSession) (questionId : Nat) (submitted : String) :
    Except GameError AnswerResult × GameSession :=
  if s.activeQuestionId = some questionId then
    if s.status = SessionStatus.active then
      let q := lookup questionId
      let correct := isCorrect q submitted
      let dealt : Nat :=
        if correct then cfg.baseDamage * cfg.diffMult q.difficulty * s.damageBoost.getD 1 else 0
      let received : Int := if correct then 0 else s.enemy.damage
      let gained : Nat :=
        if correct then cfg.baseScore * cfg.diffMult q.difficulty * s.scoreBoost.getD 1 else 0
      let granted : Option String := if correct then cfg.grantPolicy q else none
      let newEnemy : EnemyState :=
        if correct then { s.enemy with hp := max 0 (s.enemy.hp - dealt) } else s.enemy
      let newPlayer : PlayerState :=
        if correct then { s.player with score := s.player.score + gained }
        else absorb s.player s.enemy.damage
      let newInv : List String :=
        match granted with
        | some pid => s.inventory ++ [pid]
        | none => s.inventory
      let s1 : GameSession :=
        { s with
          player := newPlayer
          enemy := newEnemy
          inventory := newInv
          damageBoost := none
          scoreBoost := none
          activeQuestionId := none }
      if s1.enemy.hp = 0 then
        let s2 := advanceCore cfg s1
        (Except.ok
          { isCorrect := correct
            damageDealt := dealt
            damageReceived := received
            playerSnapshot := s2.player
            enemySnapshot := s2.enemy
            powerupGained := granted
            enemyDefeated := true
            playerDied := false
            gameWon := decide (s2.status = SessionStatus.won)
            score := s2.player.score
            correctAnswer := q.correctAnswer
            explanation := q.explanation }, s2)
      else if s1.player.hp = 0 then
        let s2 : GameSession := { s1 with status := SessionStatus.lost }
        (Except.ok
          { isCorrect := correct
            damageDealt := dealt
            damageReceived := received
            playerSnapshot := s2.player
            enemySnapshot := s2.enemy
            powerupGained := granted
            enemyDefeated := false
            playerDied := true
            gameWon := false
            score := s2.player.score
            correctAnswer := q.correctAnswer
            explanation := q.explanation }, s2)
      else
        (Except.ok
          { isCorrect := correct
            damageDealt := dealt
            damageReceived := received
            playerSnapshot := s1.player
            enemySnapshot := s1.enemy
            powerupGained := granted
            enemyDefeated := false
            playerDied := false
            gameWon := false
            score := s1.player.score
            correctAnswer := q.correctAnswer
            explanation := q.explanation }, s1)
    else (Except.error GameError.invalidSessionState, s)
  else (Except.error GameError.staleQuestion, s)

/-- Modelled from the spec: the effect semantics of each powerup kind —
heal sets hp to min(maxHp, hp + magnitude), shield adds the magnitude to
shield, damageBoost/scoreBoost set the pending one-answer multiplier
flag consumed by the next resolveAnswer call. -/
def applyEffect (d : PowerupDefinition) (s : GameSession) : GameSession :=
  match d.effectKind with
  | EffectKind.heal =>
      { s with player :=
        { s.player with hp := min s.player.maxHp (s.player.hp + d.magnitude) } }
  | EffectKind.shield =>
      { s with player :=
        { s.player with shield := s.player.shield + d.magnitude } }
  | EffectKind.damageBoost => { s with damageBoost := some d.magnitude }
  | EffectKind.scoreBoost => { s with scoreBoost := some d.magnitude }

/-- Modelled from the spec: use(session, powerupId) — fails with
PowerupNotOwned if the id is absent from the inventory; on success
removes exactly one instance and applies its effect. -/
def usePowerup (cfg : Config) (s : GameSession) (pid : String) :
    Except GameError GameSession :=
  if pid ∈ s.inventory then
    Except.ok (applyEffect (cfg.catalog pid) { s with inventory := s.inventory.erase pid })
  else Except.error GameError.powerupNotOwned

/-- Modelled from the spec: the Stats Aggregator's record operation —
upserts the TopicStat for the answered topic (created lazily on first
attempt), incrementing attempts always and correct only on a correct
answer. -/
def record (stats : List TopicStat) (topic : String) (correct : Bool)
    (elapsed : Nat) : List TopicStat :=
  if stats.any (fun t => t.topic == topic) then
    stats.map fun t =>
      if t.topic == topic then
        { t with
          attempts := t.attempts + 1
          correct := t.correct + (if correct then 1 else 0)
          accumulatedTimeSeconds := t.accumulatedTimeSeconds + elapsed }
      else t
  else
    stats ++ [{ topic := topic, attempts := 1,
                correct := if correct then 1 else 0,
                accumulatedTimeSeconds := elapsed }]

/-- Modelled from the spec: a topic's accuracy, correct/attempts (0 when
no attempt has been recorded). -/
def accuracy (t : TopicStat) : ℚ :=
  if t.attempts = 0 then 0 else (t.correct : ℚ) / (t.attempts : ℚ)

/-- Modelled from the spec: weakAreas(minAttempts, accuracyCutoff) —
topics with attempts ≥ minAttempts and accuracy below the cutoff,
ordered ascending by accuracy (weakest first). -/
def weakAreas (stats : List TopicStat) (minAttempts : Nat) (cutoff : ℚ) :
    List TopicStat :=
  List.insertionSort (fun a b => accuracy a ≤ accuracy b)
    (stats.filter fun t =>
      decide (minAttempts ≤ t.attempts) && decide (accuracy t < cutoff))

/-- Modelled from the spec: overall() accuracy — correctAnswers divided
by totalAnswers, 0 when totalAnswers is 0, never a division fault. -/
def overallAccuracy (o : OverallStats) : ℚ :=
  if o.totalAnswers = 0 then 0
  else (o.correctAnswers : ℚ) / (o.totalAnswers : ℚ)

/-- Modelled from the spec: serving a question to the session records its
id as the session's activeQuestionId. -/
def serveQuestion (s : GameSession) (qid : Nat) : GameSession :=
  { s with activeQuestionId := some qid }

/-- Modelled from the spec: a fresh session starts at encounterIndex 1
with full player stats, an empty inventory and the first encounter's
enemy. -/
def newSession (cfg : Config) (maxHp : Int) (totalEncounters : Nat) : GameSession :=
  let base : GameSession :=
    { player := { hp := maxHp, maxHp := maxHp, shield := 0, score := 0 }
      enemy := cfg.enemyTemplate 1
      encounterIndex := 1
      totalEncounters := totalEncounters
      inventory := []
      activeQuestionId := none
      status := SessionStatus.active
      damageBoost := none
      scoreBoost := none }
  { base with enemy := startEncounter cfg base }

/-- Option synthesis of RoguelikeGame.displayOptions (game.js): a
true/false question is displayed with exactly the two literal options
'true' and 'false'; any other question keeps its own option list. -/
def displayOptions (q : QuestionRecord) : List String :=
  if q.questionType = QuestionType.trueFalse then ["true", "false"] else q.options

/-- StatsManager.formatTime (stats view source): 0 seconds renders as
'0 minutes'; otherwise whole hours and minutes are rendered when
nonzero, and the residual seconds component is included only when the
hour count is 0. -/
def formatTime (seconds : Nat) : String :=
  if seconds = 0 then "0 minutes"
  else
    let hours := seconds / 3600
    let minutes := seconds % 3600 / 60
    let secs := seconds % 60
    let parts : List String :=
      (if 0 < hours then [toString hours ++ "h"] else []) ++
      (if 0 < minutes then [toString minutes ++ "m"] else []) ++
      (if 0 < secs ∧ hours = 0 then [toString secs ++ "s"] else [])
    let joined := String.intercalate " " parts
    if joined = "" then "0s" else joined

/-- The session invariants the spec demands between operations, with the
encounter-index bound weakened to what the advance semantics actually
maintains: the index stays within totalEncounters while the session is
active, and never exceeds totalEncounters + 1. -/
def SessionInv (s : GameSession) : Prop :=
  0 ≤ s.player.hp ∧ s.player.hp ≤ s.player.maxHp ∧
  0 ≤ s.player.shield ∧ 0 ≤ s.player.score ∧
  (s.status = SessionStatus.active → s.encounterIndex ≤ s.totalEncounters) ∧
  s.encounterIndex ≤ s.totalEncounters + 1

/-- The per-topic counter invariant: correct never exceeds attempts. -/
def StatInv (stats : List TopicStat) : Prop :=
  ∀ t ∈ stats, t.correct ≤ t.attempts

end Roguelike

namespace Roguelike

/-! Concrete fixtures used by the closed scenarios and the witnesses. -/

/-- One-hit enemy template used by the end-to-end win scenario. -/
def demoEnemy (i : Nat) : EnemyState :=
  { hp := 1, maxHp := 1, damage := 8, isBoss := false, displayId := i }

/-- Concrete configuration instance for the closed scenarios. -/
def demoConfig : Config :=
  { baseDamage := 5, baseScore := 10
    diffMult := fun _ => 1
    enemyTemplate := demoEnemy
    catalog := fun pid =>
      { id := pid, name := pid, effectKind := EffectKind.heal, magnitude := 5 }
    grantPolicy := fun _ => none }

/-- Concrete question pool: every id answers "a". -/
def demoQuestion (i : Nat) : QuestionRecord :=
  { id := i, topic := "algebra", difficulty := Difficulty.medium, text := "q"
    options := ["a", "b"], questionType := QuestionType.multipleChoice
    correctAnswer := "a", explanation := "e" }

/-- Fresh three-encounter session for the end-to-end scenario. -/
def demoS0 : GameSession := newSession demoConfig 20 3

/-- Session after the first correct answer. -/
def demoS1 : GameSession :=
  (resolveAnswer demoConfig demoQuestion (serveQuestion demoS0 1) 1 "a").2

/-- Session after the second correct answer. -/
def demoS2 : GameSession :=
  (resolveAnswer demoConfig demoQuestion (serveQuestion demoS1 2) 2 "a").2

/-- Session after the third correct answer. -/
def demoS3 : GameSession :=
  (resolveAnswer demoConfig demoQuestion (serveQuestion demoS2 3) 3 "a").2

/-- Result of the first answer resolution of the scenario. -/
def demoR1 : Except GameError AnswerResult :=
  (resolveAnswer demoConfig demoQuestion (serveQuestion demoS0 1) 1 "a").1

/-- Result of the second answer resolution of the scenario. -/
def demoR2 : Except GameError AnswerResult :=
  (resolveAnswer demoConfig demoQuestion (serveQuestion demoS1 2) 2 "a").1

/-- Result of the third answer resolution of the scenario. -/
def demoR3 : Except GameError AnswerResult :=
  (resolveAnswer demoConfig demoQuestion (serveQuestion demoS2 3) 3 "a").1

/-- Active session holding shield 5 and hp 20 against an enemy with
damage 8, awaiting question 7. -/
def shieldSession : GameSession :=
  { player := { hp := 20, maxHp := 20, shield := 5, score := 0 }
    enemy := { hp := 30, maxHp := 30, damage := 8, isBoss := false, displayId := 1 }
    encounterIndex := 1
    totalEncounters := 3
    inventory := []
    activeQuestionId := some 7
    status := SessionStatus.active
    damageBoost := none
    scoreBoost := none }

/-- Terminated variant of shieldSession. -/
def wonSession : GameSession := { shieldSession with status := SessionStatus.won }

/-- Session owning exactly one heal powerup. -/
def invSession : GameSession := { shieldSession with inventory := ["heal"] }

/-- A true/false question whose correct answer is the literal "true". -/
def boolQuestion : QuestionRecord :=
  { id := 9, topic := "logic", difficulty := Difficulty.easy, text := "?"
    options := [], questionType := QuestionType.trueFalse
    correctAnswer := "true", explanation := "" }

/-- Active session sitting on the final encounter (index = total = 3). -/
def finalEncounterSession : GameSession :=
  { player := { hp := 20, maxHp := 20, shield := 0, score := 0 }
    enemy := demoEnemy 3
    encounterIndex := 3
    totalEncounters := 3
    inventory := []
    activeQuestionId := none
    status := SessionStatus.active
    damageBoost := none
    scoreBoost := none }

/-- Empty aggregate, zero answers recorded. -/
def emptyOverall : OverallStats :=
  { totalAnswers := 0, correctAnswers := 0, totalTimeSeconds := 0
    totalScore := 0, completedGames := 0 }

/-- Aggregate with four answers, two of them correct. -/
def halfOverall : OverallStats :=
  { totalAnswers := 4, correctAnswers := 2, totalTimeSeconds := 0
    totalScore := 0, completedGames := 0 }

/-- Topic with 3 attempts at 0 percent accuracy (below the sample floor). -/
def exFractions : TopicStat :=
  { topic := "fractions", attempts := 3, correct := 0, accumulatedTimeSeconds := 30 }

/-- Topic with 10 attempts at 50 percent accuracy. -/
def exGeometry : TopicStat :=
  { topic := "geometry", attempts := 10, correct := 5, accumulatedTimeSeconds := 100 }

/-- Topic with 20 attempts at 55 percent accuracy. -/
def exDecimals : TopicStat :=
  { topic := "decimals", attempts := 20, correct := 11, accumulatedTimeSeconds := 200 }

instance : IsTotal TopicStat (fun a b => accuracy a ≤ accuracy b) :=
  ⟨fun a b => le_total (accuracy a) (accuracy b)⟩

instance : IsTrans TopicStat (fun a b => accuracy a ≤ accuracy b) :=
  ⟨fun _ _ _ hab hbc => le_trans hab hbc⟩

/-! Helper lemmas shared by the claim theorems. -/

/-- Applying a powerup effect never touches the inventory. -/
theorem applyEffect_inventory (d : PowerupDefinition) (s : GameSession) :
    (applyEffect d s).inventory = s.inventory := by
  unfold applyEffect
  split <;> rfl

/-- Shield-first absorption keeps hp within bounds and the shield
nonnegative, and never touches score or maxHp. -/
theorem absorb_inv (p : PlayerState) (d : Int)
    (h1 : 0 ≤ p.hp) (h2 : p.hp ≤ p.maxHp) (h3 : 0 ≤ p.shield) :
    0 ≤ (absorb p d).hp ∧ (absorb p d).hp ≤ (absorb p d).maxHp ∧
    0 ≤ (absorb p d).shield ∧ (absorb p d).score = p.score ∧
    (absorb p d).maxHp = p.maxHp := by
  unfold absorb
  refine ⟨?_, ?_, ?_, rfl, rfl⟩
  all_goals simp
  all_goals omega

/-- The advance step preserves the session invariants and the player. -/
theorem advanceCore_inv (cfg : Config) (s : GameSession) (h : SessionInv s)
    (ha : s.status = SessionStatus.active) :
    SessionInv (advanceCore cfg s) ∧ (advanceCore cfg s).player = s.player := by
  obtain ⟨h1, h2, h3, h4, h5, h6⟩ := h
  have hidx := h5 ha
  simp only [advanceCore]
  split
  · refine ⟨⟨h1, h2, h3, h4, ?_, ?_⟩, rfl⟩
    · intro hcon
      simp at hcon
    · show s.encounterIndex + 1 ≤ s.totalEncounters + 1
      omega
  · refine ⟨⟨h1, h2, h3, h4, ?_, ?_⟩, rfl⟩
    · intro _
      show s.encounterIndex + 1 ≤ s.totalEncounters
      omega
    · show s.encounterIndex + 1 ≤ s.totalEncounters + 1
      omega

/-- Recording an attempt preserves correct ≤ attempts for every topic. -/
theorem record_statinv (stats : List TopicStat) (topic : String) (correct : Bool)
    (elapsed : Nat) (h : StatInv stats) : StatInv (record stats topic correct elapsed) := by
  unfold StatInv record at *
  split
  · intro t ht
    simp only [List.mem_map] at ht
    obtain ⟨u, hu, hut⟩ := ht
    subst hut
    have := h u hu
    split
    · simp
      split <;> omega
    · exact this
  · intro t ht
    simp only [List.mem_append, List.mem_singleton] at ht
    rcases ht with ht | ht
    · exact h t ht
    · subst ht
      simp
      split <;> omega

set_option maxHeartbeats 2000000 in
/-- Answer resolution preserves the session invariants and never lowers
the score. -/
theorem resolveAnswer_inv (cfg : Config) (lookup : Nat → QuestionRecord)
    (s : GameSession) (qid : Nat) (ans : String) (h : SessionInv s) :
    SessionInv (resolveAnswer cfg lookup s qid ans).2 ∧
    s.player.score ≤ (resolveAnswer cfg lookup s qid ans).2.player.score := by
  by_cases hq : s.activeQuestionId = some qid
  case neg =>
    simp only [resolveAnswer, if_neg hq]
    exact ⟨h, le_refl _⟩
  by_cases hs : s.status = SessionStatus.active
  case neg =>
    simp only [resolveAnswer, if_pos hq, if_neg hs]
    exact ⟨h, le_refl _⟩
  obtain ⟨h1, h2, h3, h4, h5, h6⟩ := h
  have hidx := h5 hs
  have habs := absorb_inv s.player s.enemy.damage h1 h2 h3
  have hg2 : (0:ℤ) ≤ (cfg.baseScore : ℤ) * (cfg.diffMult (lookup qid).difficulty : ℤ)
      * (s.scoreBoost.getD 1 : ℤ) :=
    mul_nonneg (mul_nonneg (Int.natCast_nonneg _) (Int.natCast_nonneg _)) (Int.natCast_nonneg _)
  simp only [resolveAnswer, if_pos hq, if_pos hs]
  repeat' split
  all_goals
    simp_all [SessionInv, advanceCore, absorb, startEncounter]
  all_goals (repeat' split)
  all_goals try simp_all
  all_goals omega

/-- Powerup use preserves the session invariants, the score, and the
progression counters. -/
theorem usePowerup_inv (cfg : Config) (s : GameSession) (pid : String)
    (h : SessionInv s) :
    ∀ s', usePowerup cfg s pid = Except.ok s' →
      SessionInv s' ∧ s.player.score ≤ s'.player.score ∧
      s'.encounterIndex = s.encounterIndex ∧
      s'.totalEncounters = s.totalEncounters ∧ s'.status = s.status := by
  intro s' hok
  obtain ⟨h1, h2, h3, h4, h5, h6⟩ := h
  unfold usePowerup at hok
  split at hok
  · simp only [Except.ok.injEq] at hok
    subst hok
    unfold applyEffect
    split <;> exact ⟨⟨by simp; try omega, by simp; try omega, by simp; try omega, h4, h5, h6⟩,
      le_refl _, rfl, rfl, rfl⟩
  · simp at hok

/-- Shape of every successful answer result: the terminal flags are
exclusive and the correctness flag is the case-insensitive comparison. -/
theorem resolveAnswer_ok_shape (cfg : Config) (lookup : Nat → QuestionRecord)
    (s : GameSession) (qid : Nat) (ans : String) (r : AnswerResult)
    (h : (resolveAnswer cfg lookup s qid ans).1 = Except.ok r) :
    (r.enemyDefeated = true → r.playerDied = false) ∧
    r.isCorrect = (lowerStr ans == lowerStr (lookup qid).correctAnswer) := by
  simp only [resolveAnswer] at h
  repeat' split at h
  all_goals
    first
      | (simp only [Except.ok.injEq] at h
         subst h
         simp [isCorrect])
      | simp at h

end Roguelike

namespace Roguelike

/-- C1: resolveAnswer on a questionId that does not match the session's
activeQuestionId always fails with StaleQuestion, and a session that is
not active (with a matching question id) fails with InvalidSessionState;
in both cases the session is returned unchanged (before/after snapshots
are equal). -/
theorem C1_stale_or_inactive_rejected (cfg : Config) (lookup : Nat → QuestionRecord)
    (s : GameSession) (qid : Nat) (ans : String) :
    (s.activeQuestionId ≠ some qid →
      resolveAnswer cfg lookup s qid ans = (Except.error GameError.staleQuestion, s)) ∧
    (s.activeQuestionId = some qid → s.status ≠ SessionStatus.active →
      resolveAnswer cfg lookup s qid ans = (Except.error GameError.invalidSessionState, s)) := by
  constructor
  · intro h
    simp [resolveAnswer, h]
  · intro h1 h2
    simp [resolveAnswer, h1, h2]

/-- C1 witness: a mismatched question id yields StaleQuestion with the
session unchanged; a won session yields InvalidSessionState. -/
theorem C1_stale_or_inactive_rejected_witness :
    resolveAnswer demoConfig demoQuestion shieldSession 99 "b"
        = (Except.error GameError.staleQuestion, shieldSession) ∧
    resolveAnswer demoConfig demoQuestion wonSession 7 "b"
        = (Except.error GameError.invalidSessionState, wonSession) :=
  ⟨(C1_stale_or_inactive_rejected demoConfig demoQuestion shieldSession 99 "b").1 (by decide),
   (C1_stale_or_inactive_rejected demoConfig demoQuestion wonSession 7 "b").2 rfl (by decide)⟩

/-- C2: an incorrect answer makes the player take exactly the enemy's
damage stat, absorbed first by shield (shield reduced before hp), with
the remainder subtracted from hp and hp floored at 0. -/
theorem C2_incorrect_answer_damage_absorption (cfg : Config)
    (lookup : Nat → QuestionRecord) (s : GameSession) (qid : Nat) (ans : String)
    (h1 : s.activeQuestionId = some qid) (h2 : s.status = SessionStatus.active)
    (hc : isCorrect (lookup qid) ans = false) :
    (resolveAnswer cfg lookup s qid ans).2.player.shield
        = s.player.shield - min s.player.shield s.enemy.damage ∧
    (resolveAnswer cfg lookup s qid ans).2.player.hp
        = max 0 (s.player.hp - (s.enemy.damage - min s.player.shield s.enemy.damage)) ∧
    ∃ r, (resolveAnswer cfg lookup s qid ans).1 = Except.ok r ∧
      r.damageReceived = s.enemy.damage ∧ r.isCorrect = false := by
  simp only [resolveAnswer, h1, h2, hc, if_pos, if_neg, Bool.false_eq_true, ite_false]
  simp only [absorb]
  split
  · simp_all [advanceCore, startEncounter]
    split <;> simp_all
  · split <;> simp_all

/-- C2 witness: shield 5, hp 20, incoming damage 8 yields shield 0 and
hp 17, with the result reporting the full 8 damage received. -/
theorem C2_incorrect_answer_damage_absorption_witness :
    (resolveAnswer demoConfig demoQuestion shieldSession 7 "b").2.player.shield = 0 ∧
    (resolveAnswer demoConfig demoQuestion shieldSession 7 "b").2.player.hp = 17 ∧
    ∃ r, (resolveAnswer demoConfig demoQuestion shieldSession 7 "b").1 = Except.ok r ∧
      r.damageReceived = 8 ∧ r.isCorrect = false := by
  have h := C2_incorrect_answer_damage_absorption demoConfig demoQuestion
    shieldSession 7 "b" rfl rfl rfl
  refine ⟨h.1.trans (by decide), h.2.1.trans (by decide), ?_⟩
  obtain ⟨r, hr, hd, hic⟩ := h.2.2
  exact ⟨r, hr, hd.trans (by decide), hic⟩

/-- C3 counterexample: a session satisfying every claimed invariant,
sitting on the final encounter (encounterIndex = totalEncounters = 3),
advances to encounterIndex 4 — the claimed invariant
encounterIndex ≤ totalEncounters is violated by the winning advance. -/
theorem C3_encounter_bound_counterexample :
    finalEncounterSession.status = SessionStatus.active ∧
    finalEncounterSession.encounterIndex ≤ finalEncounterSession.totalEncounters ∧
    (advance demoConfig finalEncounterSession).toOption.map
        (fun s' => decide (s'.encounterIndex ≤ s'.totalEncounters)) = some false ∧
    (advance demoConfig finalEncounterSession).toOption.map
        (fun s' => s'.encounterIndex) = some 4 := by decide

/-- C3 (amended): answer resolution, powerup use and encounter advance
preserve 0 ≤ hp ≤ maxHp, shield ≥ 0 and score ≥ 0, never lower the
score, keep encounterIndex ≤ totalEncounters while the session stays
active and keep encounterIndex ≤ totalEncounters + 1 always; recording
an answer preserves TopicStat.correct ≤ TopicStat.attempts. -/
theorem C3_invariants_amended (cfg : Config) (lookup : Nat → QuestionRecord)
    (s : GameSession) (qid : Nat) (ans : String) (pid : String)
    (stats : List TopicStat) (topic : String) (correct : Bool) (elapsed : Nat)
    (hse : SessionInv s) (hst : StatInv stats) :
    (SessionInv (resolveAnswer cfg lookup s qid ans).2 ∧
      s.player.score ≤ (resolveAnswer cfg lookup s qid ans).2.player.score) ∧
    (∀ s', usePowerup cfg s pid = Except.ok s' →
      SessionInv s' ∧ s.player.score ≤ s'.player.score) ∧
    (∀ s', advance cfg s = Except.ok s' →
      SessionInv s' ∧ s.player.score ≤ s'.player.score) ∧
    StatInv (record stats topic correct elapsed) := by
  refine ⟨resolveAnswer_inv cfg lookup s qid ans hse, ?_, ?_,
    record_statinv stats topic correct elapsed hst⟩
  · intro s' hok
    obtain ⟨hi, hsc, -⟩ := usePowerup_inv cfg s pid hse s' hok
    exact ⟨hi, hsc⟩
  · intro s' hok
    unfold advance at hok
    split at hok
    · simp only [Except.ok.injEq] at hok
      subst hok
      obtain ⟨hi, hp⟩ := advanceCore_inv cfg s hse (by assumption)
      refine ⟨hi, ?_⟩
      rw [hp]
    · simp at hok

/-- C3 witness: the amended invariants hold after resolving an answer on
the concrete shield session and after recording an attempt on an empty
statistics table. -/
theorem C3_invariants_amended_witness :
    SessionInv (resolveAnswer demoConfig demoQuestion shieldSession 7 "b").2 ∧
    StatInv (record [] "algebra" true 30) :=
  ⟨(C3_invariants_amended demoConfig demoQuestion shieldSession 7 "b" "heal"
      [] "algebra" true 30 (by simp [SessionInv, shieldSession]) (by simp [StatInv])).1.1,
   (C3_invariants_amended demoConfig demoQuestion shieldSession 7 "b" "heal"
      [] "algebra" true 30 (by simp [SessionInv, shieldSession]) (by simp [StatInv])).2.2.2⟩

/-- C4: on an active session, advance increments encounterIndex by
exactly one, transitions to won when the new index exceeds
totalEncounters and otherwise produces the new enemy via startEncounter;
and in the concrete three-encounter run, three consecutive
enemy-defeating correct answers take the session from encounterIndex 1
to 4 with status won reached exactly on the third resolution. -/
theorem C4_advance_and_win_progression (cfg : Config) (s : GameSession)
    (h : s.status = SessionStatus.active) :
    (∃ s', advance cfg s = Except.ok s' ∧
      s'.encounterIndex = s.encounterIndex + 1 ∧
      (s.totalEncounters < s.encounterIndex + 1 → s'.status = SessionStatus.won) ∧
      (s.encounterIndex + 1 ≤ s.totalEncounters →
        s'.status = SessionStatus.active ∧
        s'.enemy = startEncounter cfg { s with encounterIndex := s.encounterIndex + 1 })) ∧
    (demoS0.encounterIndex = 1 ∧ demoS0.totalEncounters = 3 ∧
     demoR1.toOption.map (fun r => r.enemyDefeated) = some true ∧
     demoR2.toOption.map (fun r => r.enemyDefeated) = some true ∧
     demoR3.toOption.map (fun r => r.enemyDefeated) = some true ∧
     demoR3.toOption.map (fun r => r.gameWon) = some true ∧
     demoS1.status = SessionStatus.active ∧ demoS2.status = SessionStatus.active ∧
     demoS3.status = SessionStatus.won ∧ demoS3.encounterIndex = 4) := by
  constructor
  · refine ⟨advanceCore cfg s, by simp [advance, h], ?_, ?_, ?_⟩
    · simp only [advanceCore]
      split <;> simp
    · intro hlt
      simp only [advanceCore]
      rw [if_pos (by omega)]
    · intro hle
      constructor
      · simp only [advanceCore]
        rw [if_neg (by omega)]
        exact h
      · simp only [advanceCore]
        rw [if_neg (by omega)]
  · decide

/-- C4 witness: the closed end-to-end scenario extracted from the
theorem at a concrete active session. -/
theorem C4_advance_and_win_progression_witness :
    demoS0.encounterIndex = 1 ∧ demoS0.totalEncounters = 3 ∧
    demoR1.toOption.map (fun r => r.enemyDefeated) = some true ∧
    demoR2.toOption.map (fun r => r.enemyDefeated) = some true ∧
    demoR3.toOption.map (fun r => r.enemyDefeated) = some true ∧
    demoR3.toOption.map (fun r => r.gameWon) = some true ∧
    demoS1.status = SessionStatus.active ∧ demoS2.status = SessionStatus.active ∧
    demoS3.status = SessionStatus.won ∧ demoS3.encounterIndex = 4 :=
  (C4_advance_and_win_progression demoConfig shieldSession rfl).2

/-- C5: a single successful resolveAnswer never reports enemyDefeated
and playerDied together — the terminal flags are mutually exclusive. -/
theorem C5_defeat_death_exclusive (cfg : Config) (lookup : Nat → QuestionRecord)
    (s : GameSession) (qid : Nat) (ans : String) :
    ((resolveAnswer cfg lookup s qid ans).1.toOption.elim true
      (fun r => !(r.enemyDefeated && r.playerDied))) = true := by
  cases hE : (resolveAnswer cfg lookup s qid ans).1 with
  | error e => simp [Except.toOption]
  | ok r =>
    obtain ⟨hflag, -⟩ := resolveAnswer_ok_shape cfg lookup s qid ans r hE
    simp only [Except.toOption, Option.elim]
    cases hd : r.enemyDefeated with
    | false => simp
    | true => simp [hflag hd]

end Roguelike

namespace Roguelike

/-- C6: weakAreas returns exactly the topics with attempts at or above
the floor and accuracy strictly below the cutoff, ordered ascending by
accuracy; concretely, weakAreas at floor 5 and cutoff 3/5 excludes a
topic with 3 attempts at 0 percent accuracy yet includes 50 and 55
percent topics ranked weakest first. -/
theorem C6_weakAreas_filter_and_order :
    (∀ (stats : List TopicStat) (minAttempts : Nat) (cutoff : ℚ) (t : TopicStat),
      t ∈ weakAreas stats minAttempts cutoff ↔
        t ∈ stats ∧ minAttempts ≤ t.attempts ∧ accuracy t < cutoff) ∧
    (∀ (stats : List TopicStat) (minAttempts : Nat) (cutoff : ℚ),
      List.Sorted (fun a b => accuracy a ≤ accuracy b)
        (weakAreas stats minAttempts cutoff)) ∧
    (weakAreas [exFractions, exGeometry, exDecimals] 5 (3/5)
        = [exGeometry, exDecimals] ∧
      accuracy exFractions = 0 ∧ exFractions.attempts = 3 ∧
      accuracy exGeometry = 1/2 ∧ accuracy exDecimals = 11/20) := by
  refine ⟨?_, ?_, ?_, ?_, ?_, ?_, ?_⟩
  · intro stats minAttempts cutoff t
    rw [weakAreas, List.Perm.mem_iff (List.perm_insertionSort _ _)]
    simp [List.mem_filter, and_assoc]
  · intro stats minAttempts cutoff
    exact List.sorted_insertionSort _ _
  · have h5F : ¬(5 ≤ exFractions.attempts) := by norm_num [exFractions]
    have h5G : (5:Nat) ≤ exGeometry.attempts := by norm_num [exGeometry]
    have h5D : (5:Nat) ≤ exDecimals.attempts := by norm_num [exDecimals]
    have hG : accuracy exGeometry < 3/5 := by norm_num [accuracy, exGeometry]
    have hD : accuracy exDecimals < 3/5 := by norm_num [accuracy, exDecimals]
    have hGD : accuracy exGeometry ≤ accuracy exDecimals := by
      norm_num [accuracy, exGeometry, exDecimals]
    rw [weakAreas]
    simp [List.filter_cons, List.filter_nil, List.insertionSort, List.orderedInsert,
      h5F, h5G, h5D, hG, hD, hGD]
  · norm_num [accuracy, exFractions]
  · rfl
  · norm_num [accuracy, exGeometry]
  · norm_num [accuracy, exDecimals]

/-- C7: usePowerup fails with PowerupNotOwned when the id is absent from
the inventory, and on success removes exactly one instance and applies
the effect; with exactly one instance owned, a second use of the same id
fails with PowerupNotOwned. -/
theorem C7_usePowerup_ownership (cfg : Config) (s : GameSession) (pid : String) :
    (pid ∉ s.inventory →
      usePowerup cfg s pid = Except.error GameError.powerupNotOwned) ∧
    (pid ∈ s.inventory →
      usePowerup cfg s pid =
        Except.ok (applyEffect (cfg.catalog pid) { s with inventory := s.inventory.erase pid }) ∧
      ∀ s', usePowerup cfg s pid = Except.ok s' →
        s'.inventory.count pid = s.inventory.count pid - 1 ∧
        (∀ q, q ≠ pid → s'.inventory.count q = s.inventory.count q)) ∧
    (s.inventory.count pid = 1 →
      ∃ s', usePowerup cfg s pid = Except.ok s' ∧
        usePowerup cfg s' pid = Except.error GameError.powerupNotOwned) := by
  refine ⟨?_, ?_, ?_⟩
  · intro h
    simp [usePowerup, h]
  · intro h
    refine ⟨by simp [usePowerup, h], ?_⟩
    intro s' hs'
    simp [usePowerup, h] at hs'
    subst hs'
    rw [applyEffect_inventory]
    constructor
    · exact List.count_erase_self pid s.inventory
    · intro q hq
      exact List.count_erase_of_ne hq s.inventory
  · intro h
    have hm : pid ∈ s.inventory := by
      rw [← List.count_pos_iff]
      omega
    refine ⟨applyEffect (cfg.catalog pid) { s with inventory := s.inventory.erase pid },
      by simp [usePowerup, hm], ?_⟩
    have h0 : (applyEffect (cfg.catalog pid)
        { s with inventory := s.inventory.erase pid }).inventory.count pid = 0 := by
      rw [applyEffect_inventory]
      rw [List.count_erase_self]
      omega
    have hnm := List.count_eq_zero.mp h0
    simp [usePowerup, hnm]

/-- C7 witness: an unowned id is rejected, and with one heal owned the
first use succeeds while the second fails with PowerupNotOwned. -/
theorem C7_usePowerup_ownership_witness :
    usePowerup demoConfig invSession "missing" = Except.error GameError.powerupNotOwned ∧
    ∃ s', usePowerup demoConfig invSession "heal" = Except.ok s' ∧
      usePowerup demoConfig s' "heal" = Except.error GameError.powerupNotOwned :=
  ⟨(C7_usePowerup_ownership demoConfig invSession "missing").1 (by decide),
   (C7_usePowerup_ownership demoConfig invSession "heal").2.2 (by decide)⟩

/-- C8: every successful resolveAnswer judges correctness as the
case-insensitive exact match of the submitted answer against the
question's correctAnswer; a true/false question is displayed with
exactly the literal options "true" and "false", and when its
correctAnswer is one of those literals the comparison is against that
literal string. -/
theorem C8_correctness_matching (cfg : Config) (lookup : Nat → QuestionRecord)
    (s : GameSession) (qid : Nat) (ans : String) :
    ((resolveAnswer cfg lookup s qid ans).1.toOption.elim true
      (fun r => r.isCorrect == (lowerStr ans == lowerStr (lookup qid).correctAnswer))) = true ∧
    (∀ q : QuestionRecord, q.questionType = QuestionType.trueFalse →
      displayOptions q = ["true", "false"]) ∧
    (∀ q : QuestionRecord, q.questionType = QuestionType.trueFalse →
      q.correctAnswer ∈ displayOptions q →
      ∀ a, isCorrect q a = true ↔ lowerStr a = q.correctAnswer) := by
  refine ⟨?_, ?_, ?_⟩
  · cases hE : (resolveAnswer cfg lookup s qid ans).1 with
    | error e => simp [Except.toOption]
    | ok r =>
      obtain ⟨-, hic⟩ := resolveAnswer_ok_shape cfg lookup s qid ans r hE
      simp [Except.toOption, Option.elim, hic]
  · intro q hq
    simp [displayOptions, hq]
  · intro q hq hmem a
    rw [displayOptions, if_pos hq] at hmem
    simp only [List.mem_cons, List.mem_singleton, List.not_mem_nil, or_false] at hmem
    rcases hmem with hca | hca <;>
      · rw [isCorrect, hca]
        simp [lowerStr]

/-- C8 witness: a concrete true/false question displays the two boolean
literals, and a mixed-case submission is judged by lowercase comparison
against the literal correct answer. -/
theorem C8_correctness_matching_witness :
    displayOptions boolQuestion = ["true", "false"] ∧
    (isCorrect boolQuestion "TrUe" = true ↔ lowerStr "TrUe" = boolQuestion.correctAnswer) :=
  ⟨(C8_correctness_matching demoConfig demoQuestion shieldSession 7 "b").2.1
      boolQuestion rfl,
   (C8_correctness_matching demoConfig demoQuestion shieldSession 7 "b").2.2
      boolQuestion rfl (by decide) "TrUe"⟩

/-- C9: overall accuracy is correctAnswers/totalAnswers, defined to be 0
when totalAnswers is 0, so the computation is total and never divides by
zero. -/
theorem C9_overall_accuracy_total (o : OverallStats) :
    (o.totalAnswers = 0 → overallAccuracy o = 0) ∧
    (o.totalAnswers ≠ 0 →
      overallAccuracy o * (o.totalAnswers : ℚ) = (o.correctAnswers : ℚ)) := by
  constructor
  · intro h
    simp [overallAccuracy, h]
  · intro h
    rw [overallAccuracy, if_neg h]
    rw [div_mul_cancel₀]
    exact_mod_cast h

/-- C9 witness: zero recorded answers give accuracy 0, and with four
answers and two correct the accuracy times the total equals the correct
count. -/
theorem C9_overall_accuracy_total_witness :
    overallAccuracy emptyOverall = 0 ∧
    overallAccuracy halfOverall * (halfOverall.totalAnswers : ℚ)
        = (halfOverall.correctAnswers : ℚ) :=
  ⟨(C9_overall_accuracy_total emptyOverall).1 rfl,
   (C9_overall_accuracy_total halfOverall).2 (by decide)⟩

/-- C10: formatTime is total — 0 seconds renders as "0 minutes", whole
hours and minutes are rendered when nonzero, the residual seconds
component appears only when the hour count is 0 (so 3661 renders as
"1h 1m"), and any duration of an hour or more renders identically with
its leftover seconds dropped. -/
theorem C10_formatTime_rendering :
    formatTime 0 = "0 minutes" ∧
    formatTime 45 = "45s" ∧
    formatTime 150 = "2m 30s" ∧
    formatTime 3661 = "1h 1m" ∧
    (∀ h m s : Nat, 1 ≤ h → m < 60 → s < 60 →
      formatTime (3600 * h + 60 * m + s) = formatTime (3600 * h + 60 * m)) := by
  refine ⟨by decide, by decide, by decide, by decide, ?_⟩
  intro h m s h1 h2 h3
  have e0 : ¬(3600 * h + 60 * m + s = 0) := by omega
  have e0' : ¬(3600 * h + 60 * m = 0) := by omega
  have d1 : (3600 * h + 60 * m + s) / 3600 = h := by omega
  have d2 : (3600 * h + 60 * m + s) % 3600 / 60 = m := by omega
  have d3 : (3600 * h + 60 * m + s) % 60 = s := by omega
  have d1' : (3600 * h + 60 * m) / 3600 = h := by omega
  have d2' : (3600 * h + 60 * m) % 3600 / 60 = m := by omega
  have d3' : (3600 * h + 60 * m) % 60 = 0 := by omega
  simp only [formatTime, d1, d2, d3, d1', d2', d3', if_neg e0, if_neg e0']
  rw [if_neg (by omega : ¬(0 < s ∧ h = 0)), if_neg (by omega : ¬(0 < 0 ∧ h = 0))]

/-- C10 witness: one hour, one minute and one second renders exactly as
one hour and one minute. -/
theorem C10_formatTime_rendering_witness :
    formatTime (3600 * 1 + 60 * 1 + 1) = formatTime (3600 * 1 + 60 * 1) :=
  C10_formatTime_rendering.2.2.2.2 1 1 1 (by decide) (by decide) (by decide)

end Roguelike
